import Mathlib

/-!
Shallow embedding of the NYC Ridership Dashboard (`app.py`): the record
store (`load_data`), the station aggregator (`create_station_summary`),
the borough filter block, the key-metrics column, the weekly heatmap
transform, the top-10 transforms and the raw-data preview, together with
theorems settling the specification claims about them.

Dataframes are embedded as Lean lists of structures; pandas `groupby`
(with its default `sort=True`, which orders groups by ascending key) is
embedded as deduplication of the key column followed by an insertion
sort; floating-point means are embedded as exact rational means; code
that can raise a Python exception is embedded in `Except`/`Option`.
-/

/-- A parsed `transit_timestamp` value (what `pd.to_datetime` produces):
calendar date plus 24-hour clock time. -/
structure Timestamp where
  year : Nat
  month : Nat
  day : Nat
  hour : Nat
  minute : Nat
  second : Nat
deriving DecidableEq, Repr

/-- One raw CSV row as read by `pd.read_csv`, before timestamp parsing:
the `transit_timestamp` column is still a string. -/
structure RawRecord where
  transit_timestamp : String
  station_complex : String
  borough : String
  ridership : Nat
  transfers : Nat
  payment_method : String
  fare_class_category : String
  latitude : ℚ
  longitude : ℚ
deriving DecidableEq, Repr

/-- One row of the loaded dataframe `df`, after
`pd.to_datetime(df['transit_timestamp'], format='%m/%d/%Y %I:%M:%S %p')`. -/
structure RidershipRecord where
  transit_timestamp : Timestamp
  station_complex : String
  borough : String
  ridership : Nat
  transfers : Nat
  payment_method : String
  fare_class_category : String
  latitude : ℚ
  longitude : ℚ
deriving DecidableEq, Repr

/-- One row of `station_summary`: the result of
`df.groupby(['station_complex', 'borough']).agg(...)`. -/
structure StationSummary where
  station_complex : String
  borough : String
  total_ridership : Nat
  total_transfers : Nat
  latitude : ℚ
  longitude : ℚ
deriving DecidableEq, Repr

/-! ### Timestamp parsing (`pd.to_datetime` with format `%m/%d/%Y %I:%M:%S %p`) -/

/-- Split a character list on a separator character (the pieces between
occurrences of `c`, in order). -/
def splitOnChar (c : Char) : List Char → List (List Char)
  | [] => [[]]
  | x :: xs =>
    let r := splitOnChar c xs
    if x = c then [] :: r
    else
      match r with
      | [] => [[x]]
      | y :: ys => (x :: y) :: ys

/-- Numeric value of a nonempty all-digit character list. -/
def charsToNat (l : List Char) : Nat :=
  l.foldl (fun a c => 10 * a + (c.toNat - 48)) 0

/-- Parse a digit field of the timestamp format: at least one character,
all decimal digits. -/
def parseNatField (l : List Char) : Option Nat :=
  if l ≠ [] ∧ l.all (fun c => c.isDigit) then some (charsToNat l) else none

/-- Gregorian leap-year test. -/
def isLeapYear (y : Nat) : Bool :=
  (y % 4 = 0 ∧ y % 100 ≠ 0) ∨ y % 400 = 0

/-- Number of days in a month of a given year. -/
def daysInMonth (y m : Nat) : Nat :=
  if m = 2 then (if isLeapYear y then 29 else 28)
  else if m = 4 ∨ m = 6 ∨ m = 9 ∨ m = 11 then 30
  else 31

/-- Parse one `transit_timestamp` string under the literal format
`%m/%d/%Y %I:%M:%S %p` (month/day/year, 12-hour clock, AM/PM marker),
validating calendar and clock ranges as the datetime parser does; `none`
models the `ValueError` pandas raises on an unparseable value. -/
def parseTimestamp (s : String) : Option Timestamp :=
  match splitOnChar ' ' s.data with
  | [datePart, timePart, ampm] =>
    match splitOnChar '/' datePart, splitOnChar ':' timePart with
    | [ms, ds, ys], [hs, mins, secs] => do
      let month ← parseNatField ms
      let day ← parseNatField ds
      let year ← parseNatField ys
      let hour12 ← parseNatField hs
      let minute ← parseNatField mins
      let second ← parseNatField secs
      if 1 ≤ month ∧ month ≤ 12 ∧ 1 ≤ day ∧ day ≤ daysInMonth year month ∧
          1 ≤ hour12 ∧ hour12 ≤ 12 ∧ minute ≤ 59 ∧ second ≤ 59 ∧
          (ampm = "AM".data ∨ ampm = "PM".data) then
        some { year := year, month := month, day := day,
               hour := hour12 % 12 + (if ampm = "PM".data then 12 else 0),
               minute := minute, second := second }
      else none
    | _, _ => none
  | _ => none

/-! ### Record store: `load_data` and the startup try/except block -/

/-- The two failure kinds of `load_data`: `FileNotFoundError` from
`pd.read_csv` on a missing file, and the `ValueError` from
`pd.to_datetime` on an unparseable `transit_timestamp`. -/
inductive LoadError where
  | fileNotFound
  | parseError
deriving DecidableEq, Repr

/-- Parse the timestamp column of one raw row. -/
def parseRow (r : RawRecord) : Option RidershipRecord :=
  (parseTimestamp r.transit_timestamp).map fun t =>
    { transit_timestamp := t, station_complex := r.station_complex,
      borough := r.borough, ridership := r.ridership, transfers := r.transfers,
      payment_method := r.payment_method,
      fare_class_category := r.fare_class_category,
      latitude := r.latitude, longitude := r.longitude }

/-- Parse the whole `transit_timestamp` column elementwise; `none` if
any row fails (pandas raises on the first unparseable value). -/
def parseAll : List RawRecord → Option (List RidershipRecord)
  | [] => some []
  | r :: rs =>
    match parseRow r, parseAll rs with
    | some x, some xs => some (x :: xs)
    | _, _ => none

/-- `load_data(file_path)`: the file system is abstracted as
`Option (List RawRecord)` (`none` = the path does not resolve to a
readable file). `pd.read_csv` on a missing file raises
`FileNotFoundError`; otherwise `pd.to_datetime` parses every
`transit_timestamp` and raises on the first failure. -/
def load_data (file : Option (List RawRecord)) :
    Except LoadError (List RidershipRecord) :=
  match file with
  | none => .error .fileNotFound
  | some rows =>
    match parseAll rows with
    | some df => .ok df
    | none => .error .parseError

/-! ### Station aggregator: `create_station_summary` -/

/-- The groupby key of `create_station_summary`:
the `(station_complex, borough)` pair of a record. -/
def recordKey (r : RidershipRecord) : String × String :=
  (r.station_complex, r.borough)

/-- Lexicographic code-point less-or-equal on character lists: the
comparison Python applies to strings (and therefore the order pandas
sorts string group keys in). -/
def charListLe : List Char → List Char → Bool
  | [], _ => true
  | _ :: _, [] => false
  | a :: as, b :: bs =>
    if a.toNat < b.toNat then true
    else if b.toNat < a.toNat then false
    else charListLe as bs

/-- Ascending order on groupby keys: lexicographic on the
`(station_complex, borough)` pair, the order pandas sorts group keys in
(its default `sort=True`): compare stations by code point, break ties
on the borough. -/
def keyLeB (k1 k2 : String × String) : Bool :=
  if k1.1 = k2.1 then charListLe k1.2.data k2.2.data
  else charListLe k1.1.data k2.1.data

/-- `keyLeB` as a relation, for the sorting machinery. -/
def keyLe (k1 k2 : String × String) : Prop := keyLeB k1 k2 = true

instance : DecidableRel keyLe := fun k1 k2 => by
  unfold keyLe; infer_instance

/-- Deduplicate a list keeping the first occurrence of each element, in
first-appearance order (the order `pandas.unique` reports values in). -/
def firstDedup {α : Type} [DecidableEq α] : List α → List α
  | [] => []
  | a :: l => a :: (firstDedup l).filter (fun x => x ≠ a)

/-- The rows of `df` belonging to one groupby key. -/
def groupRows (df : List RidershipRecord) (k : String × String) :
    List RidershipRecord :=
  df.filter (fun r => recordKey r = k)

/-- Aggregate one group: sum `ridership`, sum `transfers`, take the
arithmetic mean of `latitude` and `longitude`. -/
def aggGroup (k : String × String) (rows : List RidershipRecord) :
    StationSummary :=
  { station_complex := k.1, borough := k.2,
    total_ridership := (rows.map (fun r => r.ridership)).sum,
    total_transfers := (rows.map (fun r => r.transfers)).sum,
    latitude := (rows.map (fun r => r.latitude)).sum / (rows.length : ℚ),
    longitude := (rows.map (fun r => r.longitude)).sum / (rows.length : ℚ) }

/-- `create_station_summary(df)`: group by
`['station_complex', 'borough']` (groups ordered by ascending key, the
pandas default), aggregate each group, `reset_index()`. -/
def create_station_summary (df : List RidershipRecord) :
    List StationSummary :=
  (List.insertionSort keyLe (firstDedup (df.map recordKey))).map
    fun k => aggGroup k (groupRows df k)

/-! ### Startup try/except block (lines 33-39 of `app.py`) -/

/-- Outcome of the startup region: the dashboard renders, or
`st.error`/`st.info`/`st.stop` shows an error screen and halts, or an
exception escapes the `try` uncaught (Streamlit then shows a traceback,
not the operator-facing message). -/
inductive StartupOutcome where
  | rendered (df : List RidershipRecord) (station_summary : List StationSummary)
  | errorScreen (messages : List String)
  | uncaughtException (e : LoadError)
deriving DecidableEq, Repr

/-- The `try: df = load_data(...); station_summary = ...` block. Only
`FileNotFoundError` is caught; the `ValueError` from timestamp parsing
propagates uncaught. -/
def startup (file : Option (List RawRecord)) : StartupOutcome :=
  match load_data file with
  | .ok df => .rendered df (create_station_summary df)
  | .error .fileNotFound =>
    .errorScreen
      ["Error: The specified data file was not found.",
       "Please make sure the CSV file is in the same directory as your Streamlit app."]
  | .error .parseError => .uncaughtException .parseError

/-! ### Filter stage (lines 42-56 of `app.py`) -/

/-- `df['borough'].unique().tolist()`: the distinct borough values in
first-appearance order. -/
def uniqueBoroughs (df : List RidershipRecord) : List String :=
  firstDedup (df.map (fun r => r.borough))

/-- `df[df['borough'] == selected_borough]` (line 53 of `app.py`). -/
def filterRecordsByBorough (df : List RidershipRecord) (b : String) :
    List RidershipRecord :=
  df.filter (fun r => r.borough = b)

/-- `station_summary[station_summary['borough'] == selected_borough]`
(line 54 of `app.py`). -/
def filterSummariesByBorough (sm : List StationSummary) (b : String) :
    List StationSummary :=
  sm.filter (fun s => s.borough = b)

/-- The filter selection block: `'Overall'` keeps both frames whole,
any other selection keeps the rows whose `borough` equals it. Returns
the pair `(main_df, station_df)`. -/
def filterView (selected_borough : String) (df : List RidershipRecord)
    (station_summary : List StationSummary) :
    List RidershipRecord × List StationSummary :=
  if selected_borough = "Overall" then (df, station_summary)
  else (filterRecordsByBorough df selected_borough,
        filterSummariesByBorough station_summary selected_borough)

/-! ### Hourly line data and the key-metrics column -/

/-- Chronological rank of a timestamp (all fields are within calendar
and clock bounds, so this orders timestamps chronologically). -/
def tsRank (t : Timestamp) : Nat :=
  ((((t.year * 13 + t.month) * 32 + t.day) * 24 + t.hour) * 60 + t.minute)
    * 60 + t.second

/-- Chronological order on timestamps, the order pandas sorts the
groupby keys of `groupby('transit_timestamp')` in. -/
def tsLe (t1 t2 : Timestamp) : Prop := tsRank t1 ≤ tsRank t2

instance : DecidableRel tsLe := fun t1 t2 => by
  unfold tsLe; infer_instance

instance : IsTotal Timestamp tsLe :=
  ⟨fun a b => Nat.le_total (tsRank a) (tsRank b)⟩

instance : IsTrans Timestamp tsLe :=
  ⟨fun _ _ _ h1 h2 => Nat.le_trans h1 h2⟩

/-- `line_data_to_plot = main_df.groupby('transit_timestamp')['ridership'].sum().reset_index()`:
one row per distinct timestamp in ascending order, with the summed
ridership of that hour. -/
def lineData (main_df : List RidershipRecord) : List (Timestamp × Nat) :=
  (List.insertionSort tsLe
      (firstDedup (main_df.map (fun r => r.transit_timestamp)))).map
    fun t =>
      (t, ((main_df.filter (fun r => r.transit_timestamp = t)).map
        (fun r => r.ridership)).sum)

/-- `Series.idxmax` (followed by `.loc`): the first row attaining the
maximal value; raises on an empty series. -/
def pdIdxmax {α : Type} (f : α → Nat) : List α → Except String α
  | [] => .error "attempt to get argmax of an empty sequence"
  | a :: l => .ok (l.foldl (fun best x => if f best < f x then x else best) a)

/-- The calendar date displayed by `strftime('%b %d, %Y')`. -/
def dateOf (t : Timestamp) : Nat × Nat × Nat := (t.year, t.month, t.day)

/-- The scalar cards of the Key Metrics column: the guarded cards are
`Option` (skipped when their guard fails). -/
structure KeyMetrics where
  total_ridership : Nat
  avg_ridership : ℚ
  busiest_day : Option ((Nat × Nat × Nat) × Nat)
  busiest_station : Option (String × Nat)
  total_transfers : Option Nat
deriving DecidableEq, Repr

/-- The Key Metrics column (`col11`, lines 129-150): total and mean
ridership over `main_df`; the busiest-day card from `idxmax` over
`line_data_to_plot` when that frame is nonempty; the busiest-station and
total-transfers cards from `station_df` when that frame is nonempty.
`Except.error` marks a path where pandas would raise. -/
def renderKeyMetrics (main_df : List RidershipRecord)
    (station_df : List StationSummary) : Except String KeyMetrics :=
  let line_data := lineData main_df
  let total : Nat := (main_df.map (fun r => r.ridership)).sum
  let avg : ℚ := (total : ℚ) / (main_df.length : ℚ)
  let day? : Except String (Option ((Nat × Nat × Nat) × Nat)) :=
    if line_data = [] then .ok none
    else
      match pdIdxmax (fun p => p.2) line_data with
      | .error e => .error e
      | .ok row => .ok (some (dateOf row.1, row.2))
  match day? with
  | .error e => .error e
  | .ok bd =>
    if station_df = [] then
      .ok { total_ridership := total, avg_ridership := avg,
            busiest_day := bd, busiest_station := none,
            total_transfers := none }
    else
      match pdIdxmax (fun s => s.total_ridership) station_df with
      | .error e => .error e
      | .ok s =>
        .ok { total_ridership := total, avg_ridership := avg,
              busiest_day := bd,
              busiest_station := some (s.station_complex, s.total_ridership),
              total_transfers :=
                some ((station_df.map (fun x => x.total_transfers)).sum) }

/-- The spec's "argmax-by-day" metric, written from the spec's words for
comparison with the code's busiest-day card: group the filtered records
by calendar day, sum ridership per day, and take the first day attaining
the maximal daily total. -/
def specBusiestDay (main_df : List RidershipRecord) :
    Option ((Nat × Nat × Nat) × Nat) :=
  let days := firstDedup (main_df.map (fun r => dateOf r.transit_timestamp))
  let totals := days.map fun d =>
    (d, ((main_df.filter (fun r => dateOf r.transit_timestamp = d)).map
      (fun r => r.ridership)).sum)
  match totals with
  | [] => none
  | a :: l => some (l.foldl (fun best x => if best.2 < x.2 then x else best) a)

/-! ### Weekly-pattern heatmap (lines 196-209 of `app.py`) -/

/-- Day-of-week index of a Gregorian date, 0 = Monday
(civil-calendar day count reduced modulo 7). -/
def dayOfWeekIdx (y m d : Nat) : Nat :=
  let yAdj := if m ≤ 2 then y - 1 else y
  let yoe := yAdj % 400
  let mp := if 2 < m then m - 3 else m + 9
  let doy := (153 * mp + 2) / 5 + (d - 1)
  let doe := yoe * 365 + yoe / 4 - yoe / 100 + doy
  (doe + 2) % 7

/-- `dt.day_name()` of a timestamp. -/
def dayName (t : Timestamp) : String :=
  (["Monday", "Tuesday", "Wednesday", "Thursday", "Friday", "Saturday",
    "Sunday"]).getD (dayOfWeekIdx t.year t.month t.day) ""

/-- The column order the heatmap pivot is reindexed to. -/
def day_order : List String :=
  ["Monday", "Tuesday", "Wednesday", "Thursday", "Friday", "Saturday",
   "Sunday"]

/-- One cell of the reindexed weekly heatmap pivot: the mean ridership
over records falling on that day-of-week name and hour, and `none`
(pandas `NaN` / absent row) when no record does. -/
def heatmapCell (main_df : List RidershipRecord) (day : String)
    (hour : Nat) : Option ℚ :=
  let grp := main_df.filter fun r =>
    dayName r.transit_timestamp = day ∧ r.transit_timestamp.hour = hour
  if grp.isEmpty then none
  else some ((grp.map (fun r => (r.ridership : ℚ))).sum / (grp.length : ℚ))

/-! ### Top-N transforms and the raw-data preview -/

/-- Descending order on a numeric key (ties keep original order, as
`nlargest(keep='first')` does under a stable sort). -/
def keyGe {α : Type} (key : α → Nat) (a b : α) : Prop := key b ≤ key a

instance {α : Type} (key : α → Nat) : DecidableRel (keyGe key) :=
  fun a b => by unfold keyGe; infer_instance

instance {α : Type} (key : α → Nat) : IsTotal α (keyGe key) :=
  ⟨fun a b => (Nat.le_total (key b) (key a)).imp id id⟩

instance {α : Type} (key : α → Nat) : IsTrans α (keyGe key) :=
  ⟨fun _ _ _ h1 h2 => Nat.le_trans h2 h1⟩

/-- `DataFrame.nlargest(n, column)`: the `min(n, len)` rows with the
largest key, in descending key order, first-occurrence tie policy. -/
def nlargest {α : Type} (n : Nat) (key : α → Nat) (l : List α) : List α :=
  (List.insertionSort (keyGe key) l).take n

/-- What one interaction renders from a borough selection: the filtered
frames every chart reads, and the raw-dataset expander's preview
(`df.head(1000)`, taken from the unfiltered `df`). -/
structure Dashboard where
  main_df : List RidershipRecord
  station_df : List StationSummary
  raw_preview : List RidershipRecord
deriving DecidableEq, Repr

/-- One top-to-bottom run of the script for a given selection. -/
def renderDashboard (selected_borough : String)
    (df : List RidershipRecord) (station_summary : List StationSummary) :
    Dashboard :=
  let fv := filterView selected_borough df station_summary
  { main_df := fv.1, station_df := fv.2, raw_preview := df.take 1000 }

/-- Projection of an `Except` result for decidable concrete statements. -/
def exOk {ε α : Type} : Except ε α → Option α
  | .ok a => some a
  | .error _ => none

/-! ### Concrete fixtures used by counterexamples and witnesses -/

/-- A timestamp at a given date and hour (minutes and seconds zero). -/
def mkTs (y m d h : Nat) : Timestamp :=
  { year := y, month := m, day := d, hour := h, minute := 0, second := 0 }

/-- A record fixture with fixed payment, fare-class and coordinates. -/
def mkRec (ts : Timestamp) (station borough : String)
    (ridership transfers : Nat) : RidershipRecord :=
  { transit_timestamp := ts, station_complex := station, borough := borough,
    ridership := ridership, transfers := transfers,
    payment_method := "omny", fare_class_category := "Fair Fare",
    latitude := 40, longitude := -74 }

/-- Does the startup outcome show the operator-facing error screen? -/
def isErrorScreen : StartupOutcome → Bool
  | .errorScreen _ => true
  | _ => false

/-- The spec's end-to-end sample: two StationA/Queens records and one
StationB/Bronx record. -/
def sampleDf : List RidershipRecord :=
  [mkRec (mkTs 2024 1 1 8) "StationA" "Queens" 5 1,
   mkRec (mkTs 2024 1 1 9) "StationA" "Queens" 7 2,
   mkRec (mkTs 2024 1 1 8) "StationB" "Bronx" 3 0]

/-- The station summary of the sample input. -/
def sampleSummary : List StationSummary := create_station_summary sampleDf

/-- The StationA/Queens summary row of the sample input. -/
def stationARow : StationSummary :=
  { station_complex := "StationA", borough := "Queens",
    total_ridership := 12, total_transfers := 3,
    latitude := 40, longitude := -74 }

/-- Input whose first-appearance key order is StationB before
StationA. -/
def reversedDf : List RidershipRecord :=
  [mkRec (mkTs 2024 1 1 8) "StationB" "Queens" 1 0,
   mkRec (mkTs 2024 1 1 9) "StationA" "Queens" 2 0]

/-- A raw row whose `transit_timestamp` is not in the
`%m/%d/%Y %I:%M:%S %p` format. -/
def badRaw : RawRecord :=
  { transit_timestamp := "2024-01-01 08:00:00",
    station_complex := "StationA", borough := "Queens", ridership := 5,
    transfers := 1, payment_method := "omny",
    fare_class_category := "Fair Fare", latitude := 40, longitude := -74 }

/-- Input where the day with the largest daily total (Jan 2: 6+6=12)
differs from the day containing the largest single hourly group
(Jan 1: 10). -/
def skewedDf : List RidershipRecord :=
  [mkRec (mkTs 2024 1 1 8) "StationA" "Queens" 10 0,
   mkRec (mkTs 2024 1 2 8) "StationA" "Queens" 6 0,
   mkRec (mkTs 2024 1 2 9) "StationA" "Queens" 6 0]

/-- The spec's synthetic weekly-pattern input: two records in the
(Monday, hour 9) cell with riderships 10 and 20
(2024-01-01 was a Monday). -/
def mondayDf : List RidershipRecord :=
  [mkRec (mkTs 2024 1 1 9) "StationA" "Queens" 10 0,
   mkRec (mkTs 2024 1 1 9) "StationB" "Queens" 20 0]

/-! ### Helper lemmas -/

theorem mem_firstDedup {α : Type} [DecidableEq α] {x : α} {l : List α} :
    x ∈ firstDedup l ↔ x ∈ l := by
  induction l with
  | nil => simp [firstDedup]
  | cons a l ih =>
    simp only [firstDedup, List.mem_cons, List.mem_filter,
      decide_eq_true_eq]
    by_cases hx : x = a
    · simp [hx]
    · simp [hx, ih]

theorem nodup_firstDedup {α : Type} [DecidableEq α] (l : List α) :
    (firstDedup l).Nodup := by
  induction l with
  | nil => simp [firstDedup]
  | cons a l ih =>
    simp only [firstDedup, List.nodup_cons]
    refine ⟨fun hmem => ?_, ih.filter _⟩
    have h2 := (List.mem_filter.mp hmem).2
    simp at h2

theorem sum_map_indicator_zero {κ : Type} [DecidableEq κ] (c : κ) (v : Nat)
    (ks : List κ) (h : c ∉ ks) :
    (ks.map (fun k => if c = k then v else 0)).sum = 0 := by
  induction ks with
  | nil => simp
  | cons k ks ih =>
    simp only [List.map_cons, List.sum_cons]
    rw [if_neg (fun hc => h (by rw [hc]; exact List.mem_cons_self k ks)),
      ih (fun hm => h (List.mem_cons_of_mem k hm))]

theorem sum_map_indicator {κ : Type} [DecidableEq κ] (c : κ) (v : Nat)
    (ks : List κ) (hnd : ks.Nodup) (hc : c ∈ ks) :
    (ks.map (fun k => if c = k then v else 0)).sum = v := by
  induction ks with
  | nil => cases hc
  | cons k ks ih =>
    simp only [List.map_cons, List.sum_cons]
    rcases List.mem_cons.mp hc with rfl | hc2
    · rw [if_pos rfl,
        sum_map_indicator_zero c v ks (List.nodup_cons.mp hnd).1,
        Nat.add_zero]
    · have hck : ¬ c = k := fun h => (List.nodup_cons.mp hnd).1 (h ▸ hc2)
      rw [if_neg hck, ih (List.nodup_cons.mp hnd).2 hc2, Nat.zero_add]

/-- Summing a measure groupwise over a list of keys that covers the list
without repetition gives the global sum. -/
theorem sum_filter_partition {α κ : Type} [DecidableEq κ] (f : α → κ)
    (g : α → Nat) (l : List α) (ks : List κ) (hnd : ks.Nodup)
    (hcov : ∀ a ∈ l, f a ∈ ks) :
    (ks.map (fun k => ((l.filter (fun a => f a = k)).map g).sum)).sum
      = (l.map g).sum := by
  induction l with
  | nil => simp
  | cons a l ih =>
    have hstep : ∀ k ∈ ks,
        (((a :: l).filter (fun x => f x = k)).map g).sum
          = (if f a = k then g a else 0)
            + ((l.filter (fun x => f x = k)).map g).sum := by
      intro k _
      by_cases h : f a = k
      · simp [List.filter_cons, h]
      · simp [List.filter_cons, h]
    calc (ks.map fun k => (((a :: l).filter (fun x => f x = k)).map g).sum).sum
        = (ks.map fun k => (if f a = k then g a else 0)
            + ((l.filter (fun x => f x = k)).map g).sum).sum := by
          rw [List.map_congr_left hstep]
      _ = (ks.map fun k => (if f a = k then g a else 0)).sum
            + (ks.map fun k => ((l.filter (fun x => f x = k)).map g).sum).sum := by
          rw [← List.sum_map_add]
      _ = g a + (l.map g).sum := by
          rw [sum_map_indicator (f a) (g a) ks hnd
              (hcov a (List.mem_cons_self a l)),
            ih (fun x hx => hcov x (List.mem_cons_of_mem a hx))]
      _ = ((a :: l).map g).sum := by simp

/-- The key columns of the station summary are exactly the sorted
distinct keys of the input. -/
theorem summary_keys (df : List RidershipRecord) :
    (create_station_summary df).map (fun s => (s.station_complex, s.borough))
      = List.insertionSort keyLe (firstDedup (df.map recordKey)) := by
  unfold create_station_summary
  rw [List.map_map]
  have hcomp : ((fun s : StationSummary => (s.station_complex, s.borough)) ∘
      fun k => aggGroup k (groupRows df k)) = id := by
    funext k
    simp [aggGroup, Function.comp]
  rw [hcomp, List.map_id]

/-- The result of the first-max fold is an element of the scanned list. -/
theorem foldl_argmax_mem {α : Type} (f : α → Nat) :
    ∀ (l : List α) (a : α),
      l.foldl (fun best x => if f best < f x then x else best) a ∈ a :: l := by
  intro l
  induction l with
  | nil => intro a; simp
  | cons b l ih =>
    intro a
    simp only [List.foldl_cons]
    rcases List.mem_cons.mp (ih (if f a < f b then b else a)) with h2 | h2
    · rw [h2]
      by_cases h : f a < f b
      · simp [h]
      · simp [h]
    · exact List.mem_cons_of_mem a (List.mem_cons_of_mem b h2)

/-- The result of the first-max fold dominates every scanned element. -/
theorem foldl_argmax_ge {α : Type} (f : α → Nat) :
    ∀ (l : List α) (a y : α), y ∈ a :: l →
      f y ≤ f (l.foldl (fun best x => if f best < f x then x else best) a) := by
  intro l
  induction l with
  | nil =>
    intro a y hy
    rcases List.mem_cons.mp hy with rfl | h
    · simp
    · cases h
  | cons b l ih =>
    intro a y hy
    simp only [List.foldl_cons]
    have hacc : f a ≤ f (if f a < f b then b else a)
        ∧ f b ≤ f (if f a < f b then b else a) := by
      by_cases h : f a < f b
      · rw [if_pos h]; exact ⟨Nat.le_of_lt h, Nat.le_refl _⟩
      · rw [if_neg h]; exact ⟨Nat.le_refl _, Nat.le_of_not_lt h⟩
    rcases List.mem_cons.mp hy with rfl | hy2
    · exact le_trans hacc.1 (ih _ _ (List.mem_cons_self _ _))
    · rcases List.mem_cons.mp hy2 with rfl | hy3
      · exact le_trans hacc.2 (ih _ _ (List.mem_cons_self _ _))
      · exact ih _ y (List.mem_cons_of_mem _ hy3)

/-- `idxmax` on a nonempty series succeeds and returns a maximal row. -/
theorem pdIdxmax_spec {α : Type} (f : α → Nat) (l : List α) (h : l ≠ []) :
    ∃ x, pdIdxmax f l = .ok x ∧ x ∈ l ∧ ∀ y ∈ l, f y ≤ f x := by
  match l, h with
  | a :: l, _ =>
    exact ⟨_, rfl, foldl_argmax_mem f l a,
      fun y hy => foldl_argmax_ge f l a y hy⟩

/-- A nonempty filtered frame yields a nonempty hourly series. -/
theorem lineData_ne_nil {main_df : List RidershipRecord}
    (h : main_df ≠ []) : lineData main_df ≠ [] := by
  match main_df, h with
  | r :: rest, _ =>
    unfold lineData
    intro hc
    have hlen := congrArg List.length hc
    simp only [List.length_map, List.length_nil] at hlen
    rw [(List.perm_insertionSort tsLe _).length_eq] at hlen
    simp [firstDedup] at hlen

/-- If any raw row's timestamp fails to parse, parsing the column
fails. -/
theorem parseAll_none {rows : List RawRecord}
    (h : ∃ r ∈ rows, parseTimestamp r.transit_timestamp = none) :
    parseAll rows = none := by
  induction rows with
  | nil => simp at h
  | cons a rows ih =>
    rcases h with ⟨r, hr, hnone⟩
    rcases List.mem_cons.mp hr with rfl | hr2
    · have hpr : parseRow r = none := by simp [parseRow, hnone]
      simp [parseAll, hpr]
    · have ht := ih ⟨r, hr2, hnone⟩
      cases hpa : parseRow a with
      | none => simp [parseAll, hpa]
      | some v => simp [parseAll, hpa, ht]

/-- A nonempty input yields a nonempty station summary. -/
theorem summary_ne_nil {df : List RidershipRecord} (h : df ≠ []) :
    create_station_summary df ≠ [] := by
  match df, h with
  | r :: rest, _ =>
    unfold create_station_summary
    intro hc
    have hlen := congrArg List.length hc
    simp only [List.length_map, List.length_nil] at hlen
    rw [(List.perm_insertionSort keyLe _).length_eq] at hlen
    simp [firstDedup] at hlen

/-- Summing any per-group aggregated measure over the sorted distinct
keys recovers the global sum of that measure. -/
theorem summary_field_sum (df : List RidershipRecord)
    (g : RidershipRecord → Nat) :
    ((List.insertionSort keyLe (firstDedup (df.map recordKey))).map
        (fun k => ((groupRows df k).map g).sum)).sum = (df.map g).sum := by
  have hperm := List.perm_insertionSort keyLe (firstDedup (df.map recordKey))
  rw [(hperm.map _).sum_eq]
  exact sum_filter_partition recordKey g df _ (nodup_firstDedup _)
    (fun a ha => mem_firstDedup.mpr (List.mem_map_of_mem recordKey ha))

/-- The summary's total ridership column sums to the input's ridership
column sum. -/
theorem summary_ridership_sum (df : List RidershipRecord) :
    ((create_station_summary df).map (fun s => s.total_ridership)).sum
      = (df.map (fun r => r.ridership)).sum := by
  unfold create_station_summary
  rw [List.map_map]
  have hcomp : ((fun s : StationSummary => s.total_ridership) ∘
      fun k => aggGroup k (groupRows df k))
      = fun k => ((groupRows df k).map (fun r => r.ridership)).sum := by
    funext k
    simp [aggGroup, Function.comp]
  rw [hcomp]
  exact summary_field_sum df _

/-- The summary's total transfers column sums to the input's transfers
column sum. -/
theorem summary_transfers_sum (df : List RidershipRecord) :
    ((create_station_summary df).map (fun s => s.total_transfers)).sum
      = (df.map (fun r => r.transfers)).sum := by
  unfold create_station_summary
  rw [List.map_map]
  have hcomp : ((fun s : StationSummary => s.total_transfers) ∘
      fun k => aggGroup k (groupRows df k))
      = fun k => ((groupRows df k).map (fun r => r.transfers)).sum := by
    funext k
    simp [aggGroup, Function.comp]
  rw [hcomp]
  exact summary_field_sum df _

/-- The key-metrics column never reaches a raising path: every input,
including empty frames, yields a rendered set of cards. -/
theorem renderKeyMetrics_ok (main_df : List RidershipRecord)
    (station_df : List StationSummary) :
    ∃ m, renderKeyMetrics main_df station_df = .ok m := by
  simp only [renderKeyMetrics]
  by_cases h1 : lineData main_df = []
  · rw [if_pos h1]
    cases station_df with
    | nil => exact ⟨_, rfl⟩
    | cons s rest => exact ⟨_, rfl⟩
  · rw [if_neg h1]
    obtain ⟨row, hrow, _, _⟩ := pdIdxmax_spec (fun p => p.2)
      (lineData main_df) h1
    rw [hrow]
    cases station_df with
    | nil => exact ⟨_, rfl⟩
    | cons s rest => exact ⟨_, rfl⟩

/-- Characters with equal code points are equal. -/
theorem char_toNat_inj {a b : Char} (h : a.toNat = b.toNat) : a = b := by
  rcases a with ⟨⟨av⟩, ha⟩
  rcases b with ⟨⟨bv⟩, hb⟩
  simp only [Char.toNat, UInt32.toNat] at h
  have hv : av = bv := BitVec.toNat_injective h
  subst hv
  rfl

/-- Code-point comparison is total. -/
theorem charListLe_total : ∀ x y : List Char,
    charListLe x y = true ∨ charListLe y x = true
  | [], _ => Or.inl rfl
  | _ :: _, [] => Or.inr rfl
  | a :: as, b :: bs => by
    simp only [charListLe]
    rcases Nat.lt_trichotomy a.toNat b.toNat with h | h | h
    · left
      rw [if_pos h]
    · rw [if_neg (by omega), if_neg (by omega), if_neg (by omega),
        if_neg (by omega)]
      exact charListLe_total as bs
    · right
      rw [if_pos h]

/-- Code-point comparison is transitive. -/
theorem charListLe_trans : ∀ (x y z : List Char),
    charListLe x y = true → charListLe y z = true → charListLe x z = true
  | [], _, _, _, _ => rfl
  | _ :: _, [], _, h1, _ => by simp [charListLe] at h1
  | _ :: _, _ :: _, [], _, h2 => by simp [charListLe] at h2
  | a :: as, b :: bs, c :: cs, h1, h2 => by
    simp only [charListLe] at h1 h2 ⊢
    by_cases hab : a.toNat < b.toNat
    · by_cases hbc : b.toNat < c.toNat
      · rw [if_pos (by omega)]
      · rw [if_neg hbc] at h2
        by_cases hcb : c.toNat < b.toNat
        · rw [if_pos hcb] at h2
          exact absurd h2 (by simp)
        · rw [if_pos (by omega)]
    · rw [if_neg hab] at h1
      by_cases hba : b.toNat < a.toNat
      · rw [if_pos hba] at h1
        exact absurd h1 (by simp)
      · rw [if_neg hba] at h1
        by_cases hbc : b.toNat < c.toNat
        · rw [if_pos (by omega)]
        · rw [if_neg hbc] at h2
          by_cases hcb : c.toNat < b.toNat
          · rw [if_pos hcb] at h2
            exact absurd h2 (by simp)
          · rw [if_neg hcb] at h2
            rw [if_neg (by omega), if_neg (by omega)]
            exact charListLe_trans as bs cs h1 h2

/-- Code-point comparison is antisymmetric. -/
theorem charListLe_antisymm : ∀ (x y : List Char),
    charListLe x y = true → charListLe y x = true → x = y
  | [], [], _, _ => rfl
  | [], _ :: _, _, h2 => by simp [charListLe] at h2
  | _ :: _, [], h1, _ => by simp [charListLe] at h1
  | a :: as, b :: bs, h1, h2 => by
    simp only [charListLe] at h1 h2
    by_cases hab : a.toNat < b.toNat
    · rw [if_neg (by omega), if_pos hab] at h2
      exact absurd h2 (by simp)
    · rw [if_neg hab] at h1
      by_cases hba : b.toNat < a.toNat
      · rw [if_pos hba] at h1
        exact absurd h1 (by simp)
      · rw [if_neg hba] at h1
        rw [if_neg (by omega), if_neg (by omega)] at h2
        have ha : a = b := char_toNat_inj (by omega)
        rw [ha, charListLe_antisymm as bs h1 h2]

/-- Strings with equal character data are equal. -/
theorem string_data_inj {s1 s2 : String} (h : s1.data = s2.data) :
    s1 = s2 := by
  rcases s1 with ⟨l1⟩
  rcases s2 with ⟨l2⟩
  have h2 : l1 = l2 := h
  rw [h2]

/-- The groupby key order is total. -/
theorem keyLe_total (a b : String × String) : keyLe a b ∨ keyLe b a := by
  unfold keyLe keyLeB
  by_cases h : a.1 = b.1
  · rw [if_pos h, if_pos h.symm]
    exact charListLe_total a.2.data b.2.data
  · rw [if_neg h, if_neg (fun hc => h hc.symm)]
    exact charListLe_total a.1.data b.1.data

/-- The groupby key order is transitive. -/
theorem keyLe_trans (a b c : String × String) (hab : keyLe a b)
    (hbc : keyLe b c) : keyLe a c := by
  unfold keyLe keyLeB at hab hbc ⊢
  by_cases h1 : a.1 = b.1
  · rw [if_pos h1] at hab
    by_cases h2 : b.1 = c.1
    · rw [if_pos h2] at hbc
      rw [if_pos (h1.trans h2)]
      exact charListLe_trans _ _ _ hab hbc
    · rw [if_neg h2] at hbc
      rw [if_neg (fun hc => h2 (h1.symm.trans hc)), h1]
      exact hbc
  · rw [if_neg h1] at hab
    by_cases h2 : b.1 = c.1
    · rw [if_neg (fun hc => h1 (hc.trans h2.symm)), ← h2]
      exact hab
    · rw [if_neg h2] at hbc
      have hac := charListLe_trans _ _ _ hab hbc
      by_cases h3 : a.1 = c.1
      · exfalso
        apply h1
        apply string_data_inj
        apply charListLe_antisymm _ _ hab
        rw [show a.1.data = c.1.data from congrArg String.data h3] at hab ⊢
        exact hbc
      · rw [if_neg h3]
        exact hac

/-! ### Claim theorems -/

/-- C1: for every loaded record set, `create_station_summary` produces
exactly one output row per distinct (station_complex, borough) pair
present in the input — its key column is a permutation of the distinct
input keys, hence duplicate-free and co-extensive with them — and the
sum of `total_ridership` over all output rows equals the sum of
`ridership` over all input records. -/
theorem claim_summary_rows_and_total (df : List RidershipRecord) :
    ((create_station_summary df).map
        (fun s => (s.station_complex, s.borough))).Perm
      (firstDedup (df.map recordKey))
    ∧ ((create_station_summary df).map (fun s => s.total_ridership)).sum
      = (df.map (fun r => r.ridership)).sum := by
  constructor
  · rw [summary_keys]
    exact List.perm_insertionSort keyLe _
  · exact summary_ridership_sum df

/-- C2 counterexample: on `reversedDf`, whose first-appearance key order
is StationB before StationA, the summary's key column differs from the
insertion order of first appearance of the groups. -/
theorem claim_summary_order_cex :
    (create_station_summary reversedDf).map
        (fun s => (s.station_complex, s.borough))
      ≠ firstDedup (reversedDf.map recordKey) := by decide

/-- C2 amended: the summary's row order is deterministic but is the
ascending lexicographic order of the (station_complex, borough) group
key (the pandas `sort=True` default), not insertion order of first
appearance: the key column is `keyLe`-sorted and is a permutation of
the distinct input keys. -/
theorem claim_summary_order_sorted (df : List RidershipRecord) :
    List.Sorted keyLe ((create_station_summary df).map
        (fun s => (s.station_complex, s.borough)))
    ∧ ((create_station_summary df).map
        (fun s => (s.station_complex, s.borough))).Perm
      (firstDedup (df.map recordKey)) := by
  rw [summary_keys]
  haveI : IsTotal (String × String) keyLe := ⟨keyLe_total⟩
  haveI : IsTrans (String × String) keyLe := ⟨keyLe_trans⟩
  exact ⟨List.sorted_insertionSort keyLe _, List.perm_insertionSort keyLe _⟩

/-- C3 counterexample: on a readable file whose timestamp column is not
in the `%m/%d/%Y %I:%M:%S %p` format, startup ends in an uncaught
exception (the `except` clause catches only `FileNotFoundError`), not
in the operator-instructing error screen the claim requires for both
failure kinds. -/
theorem claim_load_errors_cex :
    startup (some [badRaw]) = .uncaughtException .parseError
    ∧ isErrorScreen (startup (some [badRaw])) = false := by decide

/-- C3 amended: `load_data` fails with `fileNotFound` when the path
does not resolve to a readable file and with `parseError` when the
timestamp column cannot be parsed under the 12-hour `MM/DD/YYYY`
format; the missing-file failure produces the user-visible message
instructing the operator and halts rendering, while a format failure
propagates as an uncaught exception instead of that message. -/
theorem claim_load_errors (rows : List RawRecord)
    (file : Option (List RawRecord))
    (hrows : ∃ r ∈ rows, parseTimestamp r.transit_timestamp = none)
    (hfile : load_data file = .error .parseError) :
    load_data none = .error .fileNotFound
    ∧ load_data (some rows) = .error .parseError
    ∧ startup none = .errorScreen
        ["Error: The specified data file was not found.",
         "Please make sure the CSV file is in the same directory as your Streamlit app."]
    ∧ startup file = .uncaughtException .parseError := by
  refine ⟨rfl, ?_, rfl, ?_⟩
  · simp [load_data, parseAll_none hrows]
  · unfold startup
    rw [hfile]

/-- C3 witness: the amended claim applied to the malformed concrete
file. -/
theorem claim_load_errors_witness :
    load_data none = .error .fileNotFound
    ∧ load_data (some [badRaw]) = .error .parseError
    ∧ startup none = .errorScreen
        ["Error: The specified data file was not found.",
         "Please make sure the CSV file is in the same directory as your Streamlit app."]
    ∧ startup (some [badRaw]) = .uncaughtException .parseError :=
  claim_load_errors [badRaw] (some [badRaw])
    ⟨badRaw, List.mem_cons_self _ _, by decide⟩ (by rfl)

/-- C4 counterexample: on `skewedDf` the busiest-day card shows
Jan 1 2024, the date of the largest single hourly group (ridership 10),
while the calendar day of maximal total ridership is Jan 2 2024 (daily
total 12): the card is an argmax over hourly sums, not argmax-by-day. -/
theorem claim_key_metrics_cex :
    (exOk (renderKeyMetrics skewedDf (create_station_summary skewedDf))).map
        (fun m => m.busiest_day)
      = some (some ((2024, 1, 1), 10))
    ∧ specBusiestDay skewedDf = some ((2024, 1, 2), 12)
    ∧ (exOk (renderKeyMetrics skewedDf (create_station_summary skewedDf))).map
        (fun m => m.busiest_day.map (fun p => p.1))
      ≠ some ((specBusiestDay skewedDf).map (fun p => p.1)) := by decide

/-- C4 amended: for every nonempty filtered record set whose station
frame is its summary, the key-metrics column renders: the ridership
sum; the mean ridership per record; a busiest-day card carrying the
calendar date and value of a maximal hourly group (an argmax over
hourly sums, not over daily totals); a busiest-station card for a
summary row of maximal total ridership; and a transfers card equal to
the sum of transfers over the filtered records. -/
theorem claim_key_metrics (main_df : List RidershipRecord)
    (hm : main_df ≠ []) :
    ∃ m, renderKeyMetrics main_df (create_station_summary main_df) = .ok m
      ∧ m.total_ridership = (main_df.map (fun r => r.ridership)).sum
      ∧ m.avg_ridership
          = (((main_df.map (fun r => r.ridership)).sum : ℕ) : ℚ)
            / (main_df.length : ℚ)
      ∧ (∃ row ∈ lineData main_df,
          m.busiest_day = some (dateOf row.1, row.2)
          ∧ ∀ other ∈ lineData main_df, other.2 ≤ row.2)
      ∧ (∃ s ∈ create_station_summary main_df,
          m.busiest_station = some (s.station_complex, s.total_ridership)
          ∧ ∀ other ∈ create_station_summary main_df,
              other.total_ridership ≤ s.total_ridership)
      ∧ m.total_transfers
          = some ((main_df.map (fun r => r.transfers)).sum) := by
  obtain ⟨row, hrow, hrmem, hrmax⟩ :=
    pdIdxmax_spec (fun p => p.2) (lineData main_df) (lineData_ne_nil hm)
  have hsd := summary_ne_nil hm
  obtain ⟨s, hs, hsmem, hsmax⟩ :=
    pdIdxmax_spec (fun x => x.total_ridership)
      (create_station_summary main_df) hsd
  have hEq : renderKeyMetrics main_df (create_station_summary main_df)
      = .ok { total_ridership := (main_df.map (fun r => r.ridership)).sum,
              avg_ridership :=
                (((main_df.map (fun r => r.ridership)).sum : ℕ) : ℚ)
                  / (main_df.length : ℚ),
              busiest_day := some (dateOf row.1, row.2),
              busiest_station :=
                some (s.station_complex, s.total_ridership),
              total_transfers :=
                some (((create_station_summary main_df).map
                  (fun x => x.total_transfers)).sum) } := by
    generalize hG : create_station_summary main_df = sd at hs hsd ⊢
    cases sd with
    | nil => exact absurd rfl hsd
    | cons s0 rest =>
      simp only [renderKeyMetrics]
      rw [if_neg (lineData_ne_nil hm), hrow]
      have hfold := hs
      simp only [pdIdxmax] at hfold
      simp only [pdIdxmax]
      rw [Except.ok.inj hfold, if_neg hsd]
  refine ⟨_, hEq, rfl, rfl, ⟨row, hrmem, rfl, hrmax⟩,
    ⟨s, hsmem, rfl, hsmax⟩, ?_⟩
  exact congrArg some (summary_transfers_sum main_df)

/-- C4 witness: the amended key-metrics claim at the nonempty sample
input. -/
theorem claim_key_metrics_witness :
    ∃ m, renderKeyMetrics sampleDf (create_station_summary sampleDf)
        = .ok m
      ∧ m.total_ridership = (sampleDf.map (fun r => r.ridership)).sum
      ∧ m.avg_ridership
          = (((sampleDf.map (fun r => r.ridership)).sum : ℕ) : ℚ)
            / (sampleDf.length : ℚ)
      ∧ (∃ row ∈ lineData sampleDf,
          m.busiest_day = some (dateOf row.1, row.2)
          ∧ ∀ other ∈ lineData sampleDf, other.2 ≤ row.2)
      ∧ (∃ s ∈ create_station_summary sampleDf,
          m.busiest_station = some (s.station_complex, s.total_ridership)
          ∧ ∀ other ∈ create_station_summary sampleDf,
              other.total_ridership ≤ s.total_ridership)
      ∧ m.total_transfers
          = some ((sampleDf.map (fun r => r.transfers)).sum) :=
  claim_key_metrics sampleDf (by decide)

/-- C5: on the synthetic input with exactly one record at
(Monday, hour 9, ridership 10) and one at (Monday, hour 9,
ridership 20), the weekly-pattern cell (Monday, 9) is the mean 15, and
every other (day-of-week, hour) cell of the reindexed 7x24 pivot is
undefined/missing, not zero. -/
theorem claim_weekly_heatmap :
    heatmapCell mondayDf "Monday" 9 = some 15
    ∧ ∀ d ∈ day_order, ∀ h ∈ List.range 24, (d, h) ≠ ("Monday", 9) →
        heatmapCell mondayDf d h = none := by
  constructor
  · norm_num [heatmapCell, mondayDf, dayName, dayOfWeekIdx, mkRec, mkTs]
  · decide

/-- C5 witness: the Tuesday 9h cell of the synthetic input is missing
(and the Monday 9h cell is the mean 15). -/
theorem claim_weekly_heatmap_witness :
    heatmapCell mondayDf "Monday" 9 = some 15
    ∧ heatmapCell mondayDf "Tuesday" 9 = none :=
  ⟨claim_weekly_heatmap.1,
   claim_weekly_heatmap.2 "Tuesday" (by decide) 9 (by decide) (by decide)⟩

/-- C6: filtering by borough partitions both frames: the filters of two
distinct borough values are disjoint, and every row lies in the filter
of one of the distinct borough values observed in its frame, so the
union of the filters over the distinct borough values is exactly the
unfiltered frame. -/
theorem claim_filter_partition (df : List RidershipRecord)
    (sm : List StationSummary) :
    (∀ b1 b2, b1 ≠ b2 →
      ∀ r ∈ filterRecordsByBorough df b1,
        r ∉ filterRecordsByBorough df b2)
    ∧ (∀ r, r ∈ df ↔ ∃ b ∈ uniqueBoroughs df,
        r ∈ filterRecordsByBorough df b)
    ∧ (∀ b1 b2, b1 ≠ b2 →
      ∀ s ∈ filterSummariesByBorough sm b1,
        s ∉ filterSummariesByBorough sm b2)
    ∧ (∀ s, s ∈ sm ↔ ∃ b ∈ firstDedup (sm.map (fun x => x.borough)),
        s ∈ filterSummariesByBorough sm b) := by
  refine ⟨?_, ?_, ?_, ?_⟩
  · intro b1 b2 hne r hr1 hr2
    have h1 := (List.mem_filter.mp hr1).2
    have h2 := (List.mem_filter.mp hr2).2
    simp only [decide_eq_true_eq] at h1 h2
    exact hne (h1.symm.trans h2)
  · intro r
    constructor
    · intro hr
      refine ⟨r.borough,
        mem_firstDedup.mpr (List.mem_map_of_mem _ hr), ?_⟩
      exact List.mem_filter.mpr ⟨hr, by simp⟩
    · rintro ⟨b, hb, hmem⟩
      exact (List.mem_filter.mp hmem).1
  · intro b1 b2 hne s hs1 hs2
    have h1 := (List.mem_filter.mp hs1).2
    have h2 := (List.mem_filter.mp hs2).2
    simp only [decide_eq_true_eq] at h1 h2
    exact hne (h1.symm.trans h2)
  · intro s
    constructor
    · intro hs
      refine ⟨s.borough,
        mem_firstDedup.mpr (List.mem_map_of_mem _ hs), ?_⟩
      exact List.mem_filter.mpr ⟨hs, by simp⟩
    · rintro ⟨b, hb, hmem⟩
      exact (List.mem_filter.mp hmem).1

/-- C6 witness: at the sample input, a Queens record is excluded from
the Bronx filter, and its membership in the frame coincides with
membership in the filter of some observed borough. -/
theorem claim_filter_partition_witness :
    mkRec (mkTs 2024 1 1 8) "StationA" "Queens" 5 1
      ∉ filterRecordsByBorough sampleDf "Bronx"
    ∧ (mkRec (mkTs 2024 1 1 8) "StationA" "Queens" 5 1 ∈ sampleDf
        ↔ ∃ b ∈ uniqueBoroughs sampleDf,
          mkRec (mkTs 2024 1 1 8) "StationA" "Queens" 5 1
            ∈ filterRecordsByBorough sampleDf b) :=
  ⟨(claim_filter_partition sampleDf []).1 "Queens" "Bronx" (by decide)
      _ (by decide),
   (claim_filter_partition sampleDf []).2.1 _⟩

/-- C7: the filter selection block is idempotent: applying it twice
with the same selection — the "Overall" sentinel or a borough — yields
exactly the result of applying it once. -/
theorem claim_filter_idempotent (sel : String)
    (df : List RidershipRecord) (sm : List StationSummary) :
    filterView sel (filterView sel df sm).1 (filterView sel df sm).2
      = filterView sel df sm := by
  unfold filterView
  by_cases h : sel = "Overall"
  · simp [h]
  · simp only [if_neg h]
    unfold filterRecordsByBorough filterSummariesByBorough
    simp [List.filter_filter]

/-- C8: for a borough selection, the filtered station frame is exactly
the subset of the summaries whose borough equals the selection and the
filtered records are exactly the input records with that borough; the
"Overall" selection is the identity on both frames. -/
theorem claim_filter_invariant (sel : String)
    (df : List RidershipRecord) (sm : List StationSummary) :
    (sel = "Overall" → filterView sel df sm = (df, sm))
    ∧ (sel ≠ "Overall" →
        (∀ s, s ∈ (filterView sel df sm).2 ↔ s ∈ sm ∧ s.borough = sel)
        ∧ (∀ r, r ∈ (filterView sel df sm).1
            ↔ r ∈ df ∧ r.borough = sel)) := by
  constructor
  · intro h
    simp [filterView, h]
  · intro h
    constructor
    · intro s
      simp [filterView, h, filterSummariesByBorough, List.mem_filter]
    · intro r
      simp [filterView, h, filterRecordsByBorough, List.mem_filter]

/-- C8 witness: the invariant at the sample frames, for the "Overall"
identity and for the Queens subset characterization of the StationA
summary row. -/
theorem claim_filter_invariant_witness :
    filterView "Overall" sampleDf sampleSummary = (sampleDf, sampleSummary)
    ∧ (stationARow ∈ (filterView "Queens" sampleDf sampleSummary).2
        ↔ stationARow ∈ sampleSummary ∧ stationARow.borough = "Queens") :=
  ⟨(claim_filter_invariant "Overall" sampleDf sampleSummary).1 rfl,
   ((claim_filter_invariant "Queens" sampleDf sampleSummary).2
      (by decide)).1 stationARow⟩

/-- C9: with fewer than 10 station rows in the filtered station frame,
each top-10 transform (busiest stations, transfer hubs) returns all
available rows — a permutation of the frame — and the key-metrics
column renders without reaching a raising path on any input, including
empty frames (the argmax cards are guarded and skipped instead). -/
theorem claim_topn_small (station_df : List StationSummary)
    (main_df : List RidershipRecord) (h : station_df.length < 10) :
    (nlargest 10 (fun s => s.total_ridership) station_df).Perm station_df
    ∧ (nlargest 10 (fun s => s.total_transfers) station_df).Perm
        station_df
    ∧ ∃ m, renderKeyMetrics main_df station_df = .ok m := by
  have hlen : ∀ key : StationSummary → Nat,
      (List.insertionSort (keyGe key) station_df).length ≤ 10 := by
    intro key
    rw [(List.perm_insertionSort (keyGe key) station_df).length_eq]
    omega
  refine ⟨?_, ?_, renderKeyMetrics_ok main_df station_df⟩
  · unfold nlargest
    rw [List.take_of_length_le (hlen _)]
    exact List.perm_insertionSort _ _
  · unfold nlargest
    rw [List.take_of_length_le (hlen _)]
    exact List.perm_insertionSort _ _

/-- C9 witness: the two-row sample summary (with an empty record frame)
keeps all rows under both top-10 transforms and the metrics render. -/
theorem claim_topn_small_witness :
    (nlargest 10 (fun s => s.total_ridership) sampleSummary).Perm
        sampleSummary
    ∧ (nlargest 10 (fun s => s.total_transfers) sampleSummary).Perm
        sampleSummary
    ∧ ∃ m, renderKeyMetrics [] sampleSummary = .ok m :=
  claim_topn_small sampleSummary [] (by decide)

/-- C10: the raw-data preview is the first min(1000, n) rows of the
full loaded dataset and is independent of the borough selection: for
every selection its content equals the preview under "Overall". -/
theorem claim_raw_preview (sel : String) (df : List RidershipRecord)
    (sm : List StationSummary) :
    (renderDashboard sel df sm).raw_preview
        = (renderDashboard "Overall" df sm).raw_preview
    ∧ (renderDashboard sel df sm).raw_preview = df.take 1000
    ∧ (renderDashboard sel df sm).raw_preview.length
        = min 1000 df.length := by
  refine ⟨rfl, rfl, ?_⟩
  simp [renderDashboard, List.length_take]
